import Mathlib

/-!
Verification of the agent execution engine of the build-with-ai-sessions
repository.  The definitions below are a shallow embedding of the Python
sources under `apps/pages/`:

* `apps/pages/react_agent.py` — the cost estimator (lines 11-34), the
  `calculate` tool (lines 138-156) and the ReAct reasoning loop
  (lines 478-698);
* `apps/pages/tool_call.py` — the second `calculate` variant (lines 96-114);
* `apps/pages/multi_agent.py` — the cost helper, the threaded runner with a
  60-second timeout (lines 672-979) and the agent handoff graph
  (lines 378-588).

Machine-level Python details that no claim depends on (UI rendering,
timestamps, network I/O) are not modelled.  `eval` is an external Python
builtin, so the arithmetic evaluator is a parameter of the embedded
`calculate`; exceptions are modelled with `Except`.
-/

namespace BuildWithAI

/-! ## Telemetry / cost estimator (react_agent.py lines 11-34) -/

/-- Embeds `estimate_tokens`: `len(text) // 4` (Python floor division). -/
def estimate_tokens (text : String) : Nat := text.length / 4

/-- The `"input"` rate of the `OPENAI_COSTS` table: `0.00015 / 1000` per token.
Decimal literals are modelled exactly as rationals. -/
def gpt4oMiniInputRate : ℚ := (0.00015 : ℚ) / 1000

/-- The `"output"` rate of the `OPENAI_COSTS` table: `0.0006 / 1000` per token. -/
def gpt4oMiniOutputRate : ℚ := (0.0006 : ℚ) / 1000

/-- Embeds the static rate table `OPENAI_COSTS` (react_agent.py lines 11-16):
it has a single entry, keyed `"gpt-4o-mini"`. -/
def OPENAI_COSTS (model : String) : Option (ℚ × ℚ) :=
  if model = "gpt-4o-mini" then some (gpt4oMiniInputRate, gpt4oMiniOutputRate) else none

/-- Result of `calculate_cost`.  The Python function returns either the literal
sentinel string `"Not available"` or a formatted cost string; the formatting
(`${...:.6f}`) is presentational, so the cost branch carries the exact
pre-formatting rational total and the token count that are interpolated. -/
inductive CostResult
  | sentinel (s : String)
  | cost (total : ℚ) (tokens : Nat)
deriving DecidableEq

/-- Embeds `calculate_cost` (react_agent.py lines 22-34): unknown models give
the sentinel `"Not available"`; known models give
`input_tokens * input_rate + output_tokens * output_rate`. -/
def calculate_cost (model input_text output_text : String) : CostResult :=
  match OPENAI_COSTS model with
  | none => CostResult.sentinel "Not available"
  | some rates =>
      CostResult.cost
        ((estimate_tokens input_text : ℚ) * rates.1 +
          (estimate_tokens output_text : ℚ) * rates.2)
        (estimate_tokens input_text + estimate_tokens output_text)

/-- Numeric projection used to state cost comparisons; the sentinel branch is
mapped to 0 (both sides of any comparison then sit in the sentinel branch
together, see the monotonicity theorem). -/
def costOf : CostResult → ℚ
  | CostResult.sentinel _ => 0
  | CostResult.cost q _ => q

/-! ## The `calculate` tool (react_agent.py lines 138-156, tool_call.py
lines 96-114)

Python's `eval` is an external builtin, so the evaluator is passed as a
parameter `evalFn : String → Except String String`; `Except.error e` models
`eval` raising an exception whose `str` is `e`, and `Except.ok r` models a
successful evaluation whose result renders as `r`. -/

/-- The `allowed_chars` set of both `calculate` variants. -/
def allowed_chars : List Char := "0123456789+-*/.()^".toList

/-- Python `str.isspace` on the ASCII whitespace characters (the inputs the
filter is concerned with are ASCII arithmetic text). -/
def pyIsSpace (c : Char) : Bool :=
  c == ' ' || c == '\t' || c == '\n' || c == '\r' || c == '\x0b' || c == '\x0c'

/-- One character passes the filter `c in allowed_chars or c.isspace()`. -/
def charOk (c : Char) : Bool := allowed_chars.contains c || pyIsSpace c

/-- Embeds `calculate` from react_agent.py lines 138-156: character filter,
then `^` → `**` replacement, then evaluation, with every evaluator exception
caught and returned as `"Error: <message>"`. -/
def calculate (evalFn : String → Except String String) (expression : String) : String :=
  if expression.toList.all charOk then
    match evalFn (expression.replace "^" "**") with
    | Except.ok result => "Calculation result: " ++ expression ++ " = " ++ result
    | Except.error e => "Error: " ++ e
  else
    "Error: Invalid characters in expression"

/-- Embeds the `calculate` variant from tool_call.py lines 96-114; it differs
from the react_agent.py version only in the result and error message text. -/
def calculate_tc (evalFn : String → Except String String) (expression : String) : String :=
  if expression.toList.all charOk then
    match evalFn (expression.replace "^" "**") with
    | Except.ok result => "The result of " ++ expression ++ " is " ++ result
    | Except.error e => "Error calculating " ++ expression ++ ": " ++ e
  else
    "Error: Invalid characters in expression"

/-! ## Conversation data model (react_agent.py lines 478-698)

Tool-call arguments travel through the loop opaquely (the loop decodes the
JSON text and passes it to the handler), so they are modelled as their
decoded payload text.  A handler is `String → Except String String`, where
`Except.error e` models the handler raising an exception with `str` `e`. -/

/-- One entry of `response_message.tool_calls`: id, `function.name` and the
decoded `function.arguments` payload. -/
structure ToolCall where
  id : String
  function_name : String
  function_arguments : String
deriving DecidableEq

/-- A conversation message, mirroring the dict shapes appended to `messages`:
the initial system/user messages, the assistant `model_dump`, and the
tool-response dicts with `tool_call_id`, `name` and `content`. -/
inductive Message
  | system (content : String)
  | user (content : String)
  | assistant (content : Option String) (tool_calls : List ToolCall)
  | tool (tool_call_id : String) (tool_name : String) (content : String)
deriving DecidableEq

/-- One entry of `step_data["tool_calls"]` (`tool_data` in the source):
name, args, optional result, optional error text. -/
structure ToolTrace where
  name : String
  args : String
  result : Option String
  error : Option String
deriving DecidableEq

/-- One `step_data` record of `execution_steps` (react_agent.py lines
509-517); the UI-only fields (`api_cost`, `model_used`) are not modelled. -/
structure StepData where
  iteration : Nat
  thinking : Option String
  tool_calls : List ToolTrace
  final_response : Option String
  error : Option String
deriving DecidableEq

/-- The `available_functions` mapping: tool name to handler, `none` for an
unregistered name (a Python `KeyError` on subscript). -/
def Registry := String → Option (String → Except String String)

/-- The completion-service response consumed per iteration:
`response_message.content` and `response_message.tool_calls` (Python `None`
is the empty list). -/
structure ResponseMessage where
  content : Option String
  tool_calls : List ToolCall
deriving DecidableEq

/-- Python truthiness of an optional string: `None` and `""` are falsy.  Used
where the source branches on `step.get(...)`. -/
def optTruthy : Option String → Bool
  | none => false
  | some s => s != ""

/-- `step_data["thinking"]` is set only when `response_message.content` is
truthy (react_agent.py lines 564-565). -/
def thinkingOf (content : Option String) : Option String :=
  if optTruthy content then content else none

/-- Python `str(KeyError(k))` is the repr of the key: `"\x27<k>\x27"`. -/
def keyErrorStr (k : String) : String := "\x27" ++ k ++ "\x27"

/-! ## Tool dispatch (react_agent.py lines 597-649)

For each tool call the source looks up `available_functions[function_name]`
and invokes it inside `try/except Exception as tool_error`; a missing name
raises `KeyError` inside that same `try`, so both the unknown-tool case and a
raising handler produce `tool_data["error"] = str(tool_error)` and a tool
message with content `f"Error: <str(tool_error)>"`. -/

/-- Dispatch one tool call, returning the `tool_data` trace and the tool
message appended to the conversation. -/
def dispatchToolCall (available_functions : Registry) (tc : ToolCall) : ToolTrace × Message :=
  match available_functions tc.function_name with
  | none =>
      (⟨tc.function_name, tc.function_arguments, none, some (keyErrorStr tc.function_name)⟩,
        Message.tool tc.id tc.function_name ("Error: " ++ keyErrorStr tc.function_name))
  | some handler =>
      match handler tc.function_arguments with
      | Except.ok r =>
          (⟨tc.function_name, tc.function_arguments, some r, none⟩,
            Message.tool tc.id tc.function_name r)
      | Except.error e =>
          (⟨tc.function_name, tc.function_arguments, none, some e⟩,
            Message.tool tc.id tc.function_name ("Error: " ++ e))

/-- Dispatch the tool calls of one iteration in source order, accumulating
traces and tool messages exactly as the Python `for idx, tool_call in
enumerate(response_message.tool_calls)` loop appends them. -/
def execToolCalls (available_functions : Registry) (tcs : List ToolCall) :
    List ToolTrace × List Message :=
  tcs.foldl
    (fun acc tc =>
      (acc.1 ++ [(dispatchToolCall available_functions tc).1],
        acc.2 ++ [(dispatchToolCall available_functions tc).2]))
    ([], [])

/-! ## The reasoning loop (react_agent.py lines 500-698) -/

/-- Loop state: the `messages` conversation and the `execution_steps` log. -/
structure LoopState where
  messages : List Message
  execution_steps : List StepData
deriving DecidableEq

/-- What one iteration decided: keep looping, final answer reached (`break`
in the no-tool-calls branch), or the iteration errored (`break` in the
`except` branch). -/
inductive IterOutcome
  | next
  | done
  | errored
deriving DecidableEq

/-- One iteration of the `while iteration < max_iterations` loop.  `resp` is
the completion-service outcome: `Except.error e` models the API call raising
(caught at react_agent.py line 682, recording `step_data["error"]` and
breaking), `Except.ok rm` a returned `response_message`. -/
def runIteration (available_functions : Registry) (iteration : Nat)
    (resp : Except String ResponseMessage) (st : LoopState) : LoopState × IterOutcome :=
  match resp with
  | Except.error e =>
      ({ st with execution_steps := st.execution_steps ++ [⟨iteration, none, [], none, some e⟩] },
        IterOutcome.errored)
  | Except.ok rm =>
      if rm.tool_calls.isEmpty then
        ({ messages := st.messages ++ [Message.assistant rm.content rm.tool_calls],
           execution_steps := st.execution_steps ++
             [⟨iteration, thinkingOf rm.content, [], rm.content, none⟩] },
          IterOutcome.done)
      else
        ({ messages := st.messages ++ [Message.assistant rm.content rm.tool_calls] ++
             (execToolCalls available_functions rm.tool_calls).2,
           execution_steps := st.execution_steps ++
             [⟨iteration, thinkingOf rm.content,
               (execToolCalls available_functions rm.tool_calls).1, none, none⟩] },
          IterOutcome.next)

/-- The loop driver: `fuel` is the remaining iteration budget, `iteration`
the zero-based count of iterations already run, `svc` the completion
service (the response it would return at each call). -/
def runLoopAux (available_functions : Registry) (svc : Nat → Except String ResponseMessage) :
    Nat → Nat → LoopState → LoopState
  | 0, _, st => st
  | fuel + 1, iteration, st =>
      match runIteration available_functions (iteration + 1) (svc iteration) st with
      | (st2, IterOutcome.next) => runLoopAux available_functions svc fuel (iteration + 1) st2
      | (st2, IterOutcome.done) => st2
      | (st2, IterOutcome.errored) => st2

/-- The system prompt of react_agent.py lines 486-495. -/
def system_prompt : String :=
  "You are a helpful ReAct agent. You can think step by step, use tools, and reason about what to do next.\n\nFor each step:\n1. Think about what you need to do\n2. Use appropriate tools if needed\n3. Analyze the results\n4. Decide on next steps\n5. Continue until you have fully addressed the user\x27s request\n\nBe thorough and use multiple tools when helpful."

/-- The initial conversation (react_agent.py lines 483-498). -/
def init_messages (user_prompt : String) : List Message :=
  [Message.system system_prompt, Message.user user_prompt]

/-- Run the whole reasoning loop with budget `max_iterations`. -/
def runLoop (available_functions : Registry) (user_prompt : String) (max_iterations : Nat)
    (svc : Nat → Except String ResponseMessage) : LoopState :=
  runLoopAux available_functions svc max_iterations 0 ⟨init_messages user_prompt, []⟩

/-- Task-level status, from the final-summary branch of react_agent.py lines
768-778 (and the budget check at lines 695-698): the last step with a truthy
`final_response` means completed, with a truthy `error` failed, otherwise
incomplete (this also covers an empty log). -/
inductive RunStatus
  | completed
  | failed
  | incomplete
deriving DecidableEq

/-- Compute the task status from the execution log. -/
def runStatus (steps : List StepData) : RunStatus :=
  match steps.getLast? with
  | none => RunStatus.incomplete
  | some s =>
      if optTruthy s.final_response then RunStatus.completed
      else if optTruthy s.error then RunStatus.failed
      else RunStatus.incomplete

/-! ## The isolated runner (multi_agent.py lines 672-979)

The button handler builds `execution_log`, appends an initialization entry,
then submits `run_agent_workflow` to a thread pool and waits with
`future.result(timeout=60)`.  The worker builds its own local
`workflow_log`; only a *successful* `future.result` merges it
(`execution_log.extend(workflow_log)`, line 758).  On
`concurrent.futures.TimeoutError` the caller appends a timeout entry and
displays `execution_log` — the worker-local log is unreachable on that path.
The worker outcome (completed / timed out / raised) together with the
worker-local log content at that moment is the model's input; wall-clock
time itself is not modelled. -/

/-- One `execution_log` / `workflow_log` entry; the `timestamp`, `details`
and UI-only fields are not modelled. -/
structure LogEntry where
  step : String
  agent : String
  action : String
  status : String
  error : Option String
deriving DecidableEq

/-- The entry appended at multi_agent.py lines 678-686. -/
def initializationEntry : LogEntry :=
  ⟨"initialization", "System", "Starting multi-agent workflow", "in_progress", none⟩

/-- The worker entry appended at lines 699-707. -/
def setupEntry : LogEntry :=
  ⟨"setup", "System", "Created new event loop", "success", none⟩

/-- The worker entry appended at lines 710-721. -/
def executionEntry : LogEntry :=
  ⟨"execution", "Project Coordinator", "Starting agent collaboration", "in_progress", none⟩

/-- The caller entry appended at lines 761-769 after a successful run. -/
def finalEntry : LogEntry :=
  ⟨"final", "System", "Multi-agent workflow completed", "success", none⟩

/-- The caller entry appended in the timeout handler, lines 934-942. -/
def timeoutEntry : LogEntry :=
  ⟨"timeout", "System", "Workflow timed out", "error",
    some "TimeoutError: Agent workflow timed out"⟩

/-- The caller entry appended in the generic exception handler, lines 961-969. -/
def fatalErrorEntry (e : String) : LogEntry :=
  ⟨"fatal_error", "System", "Fatal error occurred", "error", some e⟩

/-- How the submitted worker ended: normal return carrying its
`workflow_log`, the 60-second timeout firing while it had produced a partial
`workflow_log`, or an exception re-raised through `future.result` (the
worker appends its own error entry to `workflow_log` before re-raising, but
that list is likewise local to the worker). -/
inductive WorkerOutcome
  | completed (final_output : String) (workflow_log : List LogEntry)
  | timedOut (worker_log : List LogEntry)
  | raised (err : String) (worker_log : List LogEntry)
deriving DecidableEq

/-- Task-level outcome of the button handler. -/
inductive TaskStatus
  | success (final_output : String)
  | timedOut
  | failed (err : String)
deriving DecidableEq

/-- The caller-side control flow of multi_agent.py lines 672-979: the
displayed execution log and the task status for each worker outcome. -/
def run_workflow_with_timeout (w : WorkerOutcome) : List LogEntry × TaskStatus :=
  match w with
  | WorkerOutcome.completed out wlog =>
      ([initializationEntry] ++ wlog ++ [finalEntry], TaskStatus.success out)
  | WorkerOutcome.timedOut _ =>
      ([initializationEntry] ++ [timeoutEntry], TaskStatus.timedOut)
  | WorkerOutcome.raised e _ =>
      ([initializationEntry] ++ [fatalErrorEntry e], TaskStatus.failed e)

/-! ## The delegation coordinator (multi_agent.py lines 378-588, 723)

Modelled from the spec: the handoff execution semantics live in the external
openai-agents package (`Runner.run_sync`), whose code is not part of this
repository; the repository only declares the agent graph and calls it.
Following spec section 4.3, a handoff is a specialized tool call that
transfers control to one of the current agent's declared handoff targets,
appending the target to the call chain; per sections 4.3 and 9, the original
system applies no explicit hop-count guard, so every requested handoff along
the graph is taken.  Agents are identified by name and the graph maps a name
to its ordered handoff-target names (the arena representation of section 9).
A run consumes the model's handoff choices as a script of indices into the
current agent's handoff list. -/

/-- An agent handoff graph: agent name to ordered handoff-target names. -/
def AgentGraph := String → List String

/-- Outcome of a coordinated run: the chain of agent names visited.  The
`tooManyHandoffs` form exists so the claimed guard can be stated; no run
of the modelled system ever produces it. -/
inductive CoordOutcome
  | completed (agent_chain : List String)
  | tooManyHandoffs (agent_chain : List String)
deriving DecidableEq

/-- Every choice of the script indexes an existing handoff target of the
agent it is issued from. -/
def validScriptB (g : AgentGraph) : String → List Nat → Bool
  | _, [] => true
  | cur, c :: rest =>
      match (g cur).get? c with
      | some t => validScriptB g t rest
      | none => false

/-- Walk the handoff chain: take each requested handoff in order, appending
the target's name to the chain; a request for a handoff tool the current
agent does not have cannot be issued, so the walk ends there. -/
def runHandoffChain (g : AgentGraph) : String → List Nat → List String → CoordOutcome
  | _, [], acc => CoordOutcome.completed acc
  | cur, c :: rest, acc =>
      match (g cur).get? c with
      | some t => runHandoffChain g t rest (acc ++ [t])
      | none => CoordOutcome.completed acc

/-- Run the delegation coordinator from a root agent. -/
def runCoordinator (g : AgentGraph) (root : String) (script : List Nat) : CoordOutcome :=
  runHandoffChain g root script [root]

/-- The repository's agent graph (multi_agent.py lines 378-588, exa mode):
`coordinator_agent` lists seven handoff targets,
`parallel_research_coordinator` five, every other agent none. -/
def coordinatorHandoffs : AgentGraph := fun a =>
  if a = "Project Coordinator" then
    ["Research Specialist", "Exa Web Analyst", "Parallel Research Coordinator",
      "Data Analyst", "Content Writer", "Creative Director", "Strategic Thinking Analyst"]
  else if a = "Parallel Research Coordinator" then
    ["arXiv Research Specialist", "Twitter Research Specialist",
      "Papers with Code Specialist", "Strategic Thinking Analyst", "Content Writer"]
  else []

/-- A two-agent cyclic handoff graph, the shape spec section 3 allows
("may contain cycles conceptually"); used to exhibit unbounded chains. -/
def pingPongGraph : AgentGraph := fun a =>
  if a = "A" then ["B"] else if a = "B" then ["A"] else []

/-! ## Concrete fixtures for witnesses and counterexamples -/

/-- A handler that always succeeds with a fixed result; stands in for the
mock tool bodies (random weather, clock-dependent notes), whose outputs no
claim depends on — the claims below use only the registry's name domain. -/
def stubHandler (r : String) : String → Except String String := fun _ => Except.ok r

/-- The mock-mode `available_functions` mapping of react_agent.py lines
431-436, parameterized by the four handler bodies. -/
def mock_available_functions
    (search_web get_weather calcFn save_note : String → Except String String) : Registry :=
  fun fname =>
    if fname = "search_web" then some search_web
    else if fname = "get_weather" then some get_weather
    else if fname = "calculate" then some calcFn
    else if fname = "save_note" then some save_note
    else none

/-- Mock registry with fixed-output handler bodies. -/
def mockRegistryStub : Registry :=
  mock_available_functions (stubHandler "search result") (stubHandler "weather result")
    (stubHandler "calc result") (stubHandler "note saved")

/-- Mock registry whose `get_weather` handler raises. -/
def mockRegistryFailingWeather : Registry :=
  mock_available_functions (stubHandler "search result") (fun _ => Except.error "boom")
    (stubHandler "calc result") (stubHandler "note saved")

/-- A completion service that requests one tool call on every iteration. -/
def svcAlwaysTools : Nat → Except String ResponseMessage :=
  fun _ => Except.ok ⟨some "thinking", [⟨"call_1", "get_weather", ""⟩]⟩

/-- A two-tool-call assistant response. -/
def rmTwoTools : ResponseMessage :=
  ⟨some "thinking", [⟨"call_1", "search_web", "python"⟩, ⟨"call_2", "calculate", "2+2"⟩]⟩

/-- A single failing tool call response. -/
def rmFailingWeather : ResponseMessage :=
  ⟨some "thinking", [⟨"call_9", "get_weather", "Tokyo"⟩]⟩

/-- The initial loop state for a fixed prompt. -/
def st0 : LoopState := ⟨init_messages "plan a trip", []⟩

/-- An echo evaluator: returns the expression it was asked to evaluate, so
theorem instances display the normalized text the evaluator received. -/
def echoEval : String → Except String String := fun s => Except.ok s

/-- The worker-local log after the entries of multi_agent.py lines 699-721,
i.e. a partial `workflow_log` a timed-out worker had produced. -/
def workerLogFixture : List LogEntry := [setupEntry, executionEntry]

/-! ## Helper lemmas -/

/-- The element `getLast?` returns is a member of the list. -/
theorem mem_of_getLast?_eq {α : Type} {l : List α} {a : α} (h : l.getLast? = some a) :
    a ∈ l := by
  obtain ⟨hne, h2⟩ := List.mem_getLast?_eq_getLast (Option.mem_def.mpr h)
  exact h2 ▸ List.getLast_mem hne

/-- Evaluation of `calculate_cost` on the one registered model. -/
theorem calculate_cost_known (i o : String) :
    calculate_cost "gpt-4o-mini" i o =
      CostResult.cost
        ((estimate_tokens i : ℚ) * gpt4oMiniInputRate +
          (estimate_tokens o : ℚ) * gpt4oMiniOutputRate)
        (estimate_tokens i + estimate_tokens o) := rfl

/-! ## C5: the calculate tool's character filter and power normalization -/

/-- Claim C5.  For every input expression, `calculate` (both the
react_agent.py and tool_call.py variants) first checks the character set: an
expression with any character outside digits, `+-*/.()^` and whitespace
yields the invalid-expression error for every evaluator — the evaluator is
never consulted — and otherwise the evaluator is applied exactly to the
expression with every `^` replaced by `**`. -/
theorem C5_calculate_charset_and_power (evalFn : String → Except String String)
    (expr : String) :
    (expr.toList.all charOk = false →
      calculate evalFn expr = "Error: Invalid characters in expression" ∧
      calculate_tc evalFn expr = "Error: Invalid characters in expression") ∧
    (expr.toList.all charOk = true →
      calculate evalFn expr =
        (match evalFn (expr.replace "^" "**") with
          | Except.ok r => "Calculation result: " ++ expr ++ " = " ++ r
          | Except.error e => "Error: " ++ e) ∧
      calculate_tc evalFn expr =
        (match evalFn (expr.replace "^" "**") with
          | Except.ok r => "The result of " ++ expr ++ " is " ++ r
          | Except.error e => "Error calculating " ++ expr ++ ": " ++ e)) := by
  constructor
  · intro h
    have h2 : ¬(expr.toList.all charOk = true) := by rw [h]; exact Bool.false_ne_true
    constructor
    · simp only [calculate]; rw [if_neg h2]
    · simp only [calculate_tc]; rw [if_neg h2]
  · intro h
    constructor
    · simp only [calculate]; rw [if_pos h]
    · simp only [calculate_tc]; rw [if_pos h]

/-- Witness for C5 at concrete inputs: `"2+3a"` is rejected by the filter
(for the echo evaluator, and by evaluator-independence for any other), and
`"2^3"` passes the filter and reaches the evaluator with `^` replaced. -/
theorem C5_witness :
    ("2+3a".toList.all charOk = false ∧
      calculate echoEval "2+3a" = "Error: Invalid characters in expression") ∧
    ("2^3".toList.all charOk = true ∧
      calculate echoEval "2^3" =
        "Calculation result: " ++ "2^3" ++ " = " ++ ("2^3".replace "^" "**")) :=
  ⟨⟨by decide, ((C5_calculate_charset_and_power echoEval "2+3a").1 (by decide)).1⟩,
    ⟨by decide,
      (((C5_calculate_charset_and_power echoEval "2^3").2 (by decide)).1).trans rfl⟩⟩

/-! ## C10: the calculate tool is total on strings -/

/-- Claim C10.  Both `calculate` variants are total: for every evaluator and
every input string the result is one of three textual shapes — the
invalid-character error, an error text wrapping the evaluator's exception,
or the formatted result — and no exception escapes (in the embedding, every
evaluator exception is an `Except.error` that lands in the error-text
branch). -/
theorem C10_calculate_total (evalFn : String → Except String String) (expr : String) :
    (calculate evalFn expr = "Error: Invalid characters in expression" ∧
      calculate_tc evalFn expr = "Error: Invalid characters in expression") ∨
    (∃ e, evalFn (expr.replace "^" "**") = Except.error e ∧
      calculate evalFn expr = "Error: " ++ e ∧
      calculate_tc evalFn expr = "Error calculating " ++ expr ++ ": " ++ e) ∨
    (∃ r, evalFn (expr.replace "^" "**") = Except.ok r ∧
      calculate evalFn expr = "Calculation result: " ++ expr ++ " = " ++ r ∧
      calculate_tc evalFn expr = "The result of " ++ expr ++ " is " ++ r) := by
  by_cases h : expr.toList.all charOk = true
  · cases he : evalFn (expr.replace "^" "**") with
    | ok r =>
      refine Or.inr (Or.inr ⟨r, rfl, ?_, ?_⟩)
      · simp only [calculate]; rw [if_pos h, he]
      · simp only [calculate_tc]; rw [if_pos h, he]
    | error e =>
      refine Or.inr (Or.inl ⟨e, rfl, ?_, ?_⟩)
      · simp only [calculate]; rw [if_pos h, he]
      · simp only [calculate_tc]; rw [if_pos h, he]
  · refine Or.inl ⟨?_, ?_⟩
    · simp only [calculate]; rw [if_neg h]
    · simp only [calculate_tc]; rw [if_neg h]

/-! ## C7: the cost estimator's rate-table lookup and formula

The claim states the unknown-model sentinel is the string `"unavailable"`.
The source returns the string `"Not available"` (react_agent.py line 25), so
the claim is corrected on the sentinel text; the rest (len/4 token
approximation times per-model unit rates) holds. -/

/-- Counterexample to C7 as stated: at the concrete unknown model `"gpt-4"`
the estimator returns the sentinel `"Not available"`, not `"unavailable"`. -/
theorem C7_counterexample :
    calculate_cost "gpt-4" "" "" = CostResult.sentinel "Not available" ∧
    calculate_cost "gpt-4" "" "" ≠ CostResult.sentinel "unavailable" := by
  constructor
  · rfl
  · decide

/-- Claim C7 as amended: for every model absent from the static rate table
the estimator returns the sentinel string `"Not available"` rather than a
number, and for every model present it returns
`(len(input)/4) * inputRate + (len(output)/4) * outputRate` (integer floor
division by 4) together with the summed token estimate. -/
theorem C7_cost_estimator_amended (model input_text output_text : String) :
    (OPENAI_COSTS model = none →
      calculate_cost model input_text output_text = CostResult.sentinel "Not available") ∧
    (∀ ri ro, OPENAI_COSTS model = some (ri, ro) →
      calculate_cost model input_text output_text =
        CostResult.cost
          ((estimate_tokens input_text : ℚ) * ri + (estimate_tokens output_text : ℚ) * ro)
          (estimate_tokens input_text + estimate_tokens output_text)) := by
  constructor
  · intro h
    simp [calculate_cost, h]
  · intro ri ro h
    simp [calculate_cost, h]

/-- Witness for C7 at concrete inputs: the unknown model `"gpt-9"` and the
registered model `"gpt-4o-mini"`. -/
theorem C7_witness :
    (OPENAI_COSTS "gpt-9" = none ∧
      calculate_cost "gpt-9" "abc" "defg" = CostResult.sentinel "Not available") ∧
    (OPENAI_COSTS "gpt-4o-mini" = some (gpt4oMiniInputRate, gpt4oMiniOutputRate) ∧
      calculate_cost "gpt-4o-mini" "abcdefgh" "ijkl" =
        CostResult.cost
          ((estimate_tokens "abcdefgh" : ℚ) * gpt4oMiniInputRate +
            (estimate_tokens "ijkl" : ℚ) * gpt4oMiniOutputRate)
          (estimate_tokens "abcdefgh" + estimate_tokens "ijkl")) :=
  ⟨⟨rfl, (C7_cost_estimator_amended "gpt-9" "abc" "defg").1 rfl⟩,
    ⟨rfl,
      (C7_cost_estimator_amended "gpt-4o-mini" "abcdefgh" "ijkl").2
        gpt4oMiniInputRate gpt4oMiniOutputRate rfl⟩⟩

/-! ## C8: monotonicity of the cost estimate

The claim asserts monotonicity in the *sum* `len(input) + len(output)`.
That fails because the output rate (0.0006/1000) is four times the input
rate (0.00015/1000): four output characters cost more than eight input
characters.  Monotonicity holds componentwise. -/

/-- Counterexample to C8 as stated: for the fixed model `"gpt-4o-mini"`, the
pair `("", "aaaa")` has total length 4 ≤ 8, the total length of
`("aaaaaaaa", "")`, yet its estimated cost is strictly larger. -/
theorem C8_counterexample :
    "".length + "aaaa".length ≤ "aaaaaaaa".length + "".length ∧
    costOf (calculate_cost "gpt-4o-mini" "aaaaaaaa" "") <
      costOf (calculate_cost "gpt-4o-mini" "" "aaaa") := by
  constructor
  · decide
  · rw [calculate_cost_known, calculate_cost_known]
    simp only [costOf]
    have e1 : estimate_tokens "aaaaaaaa" = 2 := rfl
    have e2 : estimate_tokens "" = 0 := rfl
    have e3 : estimate_tokens "aaaa" = 1 := rfl
    rw [e1, e2, e3, gpt4oMiniInputRate, gpt4oMiniOutputRate]
    norm_num

/-- Claim C8 as amended: for a fixed model, the estimated cost is
monotonically non-decreasing componentwise — if `len(input)` and
`len(output)` each do not decrease, the estimated cost does not decrease.
(For models absent from the table both sides sit in the sentinel branch.) -/
theorem C8_cost_monotone_amended (model i1 o1 i2 o2 : String)
    (hi : i1.length ≤ i2.length) (ho : o1.length ≤ o2.length) :
    costOf (calculate_cost model i1 o1) ≤ costOf (calculate_cost model i2 o2) := by
  by_cases hm : model = "gpt-4o-mini"
  · have h1 : (i1.length / 4 : ℕ) ≤ i2.length / 4 := Nat.div_le_div_right hi
    have h2 : (o1.length / 4 : ℕ) ≤ o2.length / 4 := Nat.div_le_div_right ho
    simp only [calculate_cost, OPENAI_COSTS, hm, if_pos, costOf, estimate_tokens]
    have hri : (0 : ℚ) ≤ gpt4oMiniInputRate := by rw [gpt4oMiniInputRate]; norm_num
    have hro : (0 : ℚ) ≤ gpt4oMiniOutputRate := by rw [gpt4oMiniOutputRate]; norm_num
    refine add_le_add ?_ ?_
    · exact mul_le_mul_of_nonneg_right (by exact_mod_cast h1) hri
    · exact mul_le_mul_of_nonneg_right (by exact_mod_cast h2) hro
  · simp [calculate_cost, OPENAI_COSTS, hm, costOf]

/-- Witness for C8 (amended) at concrete inputs. -/
theorem C8_witness :
    "ab".length ≤ "abcd".length ∧ "x".length ≤ "xyz".length ∧
    costOf (calculate_cost "gpt-4o-mini" "ab" "x") ≤
      costOf (calculate_cost "gpt-4o-mini" "abcd" "xyz") :=
  ⟨by decide, by decide,
    C8_cost_monotone_amended "gpt-4o-mini" "ab" "x" "abcd" "xyz" (by decide) (by decide)⟩

/-! ## C6: the timeout path of the isolated runner

The claim asserts that on timeout the caller still sees the worker's partial
ExecutionLog.  In the source the worker-local `workflow_log` is merged into
the displayed `execution_log` only after a successful `future.result`
(multi_agent.py line 758); when `future.result(timeout=60)` raises
`concurrent.futures.TimeoutError`, the handler at lines 933-958 displays
only the caller-side log (the initialization entry plus a timeout entry) —
the worker's partial records are discarded. -/

/-- Counterexample to C6 as stated: a worker that timed out after producing
the setup and execution entries of its `workflow_log`.  The caller does
report the timeout, but the displayed log does not contain the worker's
entries. -/
theorem C6_counterexample :
    (run_workflow_with_timeout (WorkerOutcome.timedOut workerLogFixture)).2 =
      TaskStatus.timedOut ∧
    setupEntry ∉ (run_workflow_with_timeout (WorkerOutcome.timedOut workerLogFixture)).1 ∧
    executionEntry ∉ (run_workflow_with_timeout (WorkerOutcome.timedOut workerLogFixture)).1 := by
  refine ⟨rfl, ?_, ?_⟩ <;> decide

/-- Claim C6 as amended: when the timeout fires, the caller receives the
TimeoutError (task status timedOut) and the displayed execution log is
exactly the caller-side initialization entry followed by the timeout entry,
independent of whatever partial `workflow_log` the worker had produced —
the worker's partial records are discarded on timeout (they are merged only
on the success path). -/
theorem C6_timeout_partial_log_amended (worker_log : List LogEntry) :
    run_workflow_with_timeout (WorkerOutcome.timedOut worker_log) =
      ([initializationEntry, timeoutEntry], TaskStatus.timedOut) := rfl

/-! ## Lemmas about tool dispatch and the loop body -/

/-- Sequentially dispatching the tool calls of one iteration yields the
traces and tool messages of the calls in source order. -/
theorem execToolCalls_eq (reg : Registry) (tcs : List ToolCall) :
    execToolCalls reg tcs =
      (tcs.map (fun tc => (dispatchToolCall reg tc).1),
        tcs.map (fun tc => (dispatchToolCall reg tc).2)) := by
  have aux : ∀ (l : List ToolCall) (a : List ToolTrace) (b : List Message),
      l.foldl
        (fun acc tc =>
          (acc.1 ++ [(dispatchToolCall reg tc).1], acc.2 ++ [(dispatchToolCall reg tc).2]))
        (a, b) =
      (a ++ l.map (fun tc => (dispatchToolCall reg tc).1),
        b ++ l.map (fun tc => (dispatchToolCall reg tc).2)) := by
    intro l
    induction l with
    | nil => intro a b; simp
    | cons x xs ih => intro a b; simp [ih]
  simpa [execToolCalls] using aux tcs [] []

/-- Every dispatched tool message carries the id and name of its request. -/
theorem dispatchToolCall_msg (reg : Registry) (tc : ToolCall) :
    ∃ c, (dispatchToolCall reg tc).2 = Message.tool tc.id tc.function_name c := by
  cases hl : reg tc.function_name with
  | none =>
    exact ⟨"Error: " ++ keyErrorStr tc.function_name, by simp [dispatchToolCall, hl]⟩
  | some handler =>
    cases hr : handler tc.function_arguments with
    | ok r => exact ⟨r, by simp [dispatchToolCall, hl, hr]⟩
    | error e => exact ⟨"Error: " ++ e, by simp [dispatchToolCall, hl, hr]⟩

/-- The shape of an iteration whose response carries tool calls. -/
theorem runIteration_tools (reg : Registry) (i : Nat) (rm : ResponseMessage) (st : LoopState)
    (h : rm.tool_calls ≠ []) :
    runIteration reg i (Except.ok rm) st =
      ({ messages := st.messages ++ [Message.assistant rm.content rm.tool_calls] ++
           rm.tool_calls.map (fun tc => (dispatchToolCall reg tc).2),
         execution_steps := st.execution_steps ++
           [⟨i, thinkingOf rm.content,
             rm.tool_calls.map (fun tc => (dispatchToolCall reg tc).1), none, none⟩] },
        IterOutcome.next) := by
  have hne : ¬(rm.tool_calls.isEmpty = true) := by simpa [List.isEmpty_iff] using h
  simp only [runIteration, if_neg hne, execToolCalls_eq]

/-- Every iteration appends exactly one step record. -/
theorem runIteration_steps (reg : Registry) (i : Nat) (resp : Except String ResponseMessage)
    (st : LoopState) :
    ∃ s, (runIteration reg i resp st).1.execution_steps = st.execution_steps ++ [s] := by
  cases resp with
  | error e => exact ⟨⟨i, none, [], none, some e⟩, rfl⟩
  | ok rm =>
    by_cases hb : rm.tool_calls.isEmpty = true
    · refine ⟨⟨i, thinkingOf rm.content, [], rm.content, none⟩, ?_⟩
      simp only [runIteration, if_pos hb]
    · refine ⟨⟨i, thinkingOf rm.content, (execToolCalls reg rm.tool_calls).1, none, none⟩, ?_⟩
      simp only [runIteration, if_neg hb]

/-- The loop adds at most `fuel` step records. -/
theorem runLoopAux_steps_le (reg : Registry) (svc : Nat → Except String ResponseMessage) :
    ∀ (fuel i : Nat) (st : LoopState),
      ((runLoopAux reg svc fuel i st).execution_steps).length ≤
        st.execution_steps.length + fuel := by
  intro fuel
  induction fuel with
  | zero => intro i st; simp [runLoopAux]
  | succ n ih =>
    intro i st
    obtain ⟨s, hs⟩ := runIteration_steps reg (i + 1) (svc i) st
    rcases hr : runIteration reg (i + 1) (svc i) st with ⟨st2, out⟩
    rw [hr] at hs
    have hs2 : st2.execution_steps = st.execution_steps ++ [s] := by simpa using hs
    have hlen : st2.execution_steps.length = st.execution_steps.length + 1 := by
      simp [hs2]
    cases out with
    | next =>
      have h2 := ih (i + 1) st2
      simp only [runLoopAux, hr]
      omega
    | done =>
      simp only [runLoopAux, hr]
      omega
    | errored =>
      simp only [runLoopAux, hr]
      omega

/-- If every remaining response carries tool calls, no step of the final log
carries a final response or an error. -/
theorem runLoopAux_no_final (reg : Registry) (svc : Nat → Except String ResponseMessage) :
    ∀ (fuel i : Nat) (st : LoopState),
      (∀ j, i ≤ j → j < i + fuel → ∃ rm, svc j = Except.ok rm ∧ rm.tool_calls ≠ []) →
      (∀ s ∈ st.execution_steps, s.final_response = none ∧ s.error = none) →
      ∀ s ∈ (runLoopAux reg svc fuel i st).execution_steps,
        s.final_response = none ∧ s.error = none := by
  intro fuel
  induction fuel with
  | zero => intro i st _ hst; simpa [runLoopAux] using hst
  | succ n ih =>
    intro i st hsvc hst
    obtain ⟨rm, hrm, hne⟩ := hsvc i (Nat.le_refl i) (by omega)
    have hit := runIteration_tools reg (i + 1) rm st hne
    simp only [runLoopAux, hrm, hit]
    refine ih (i + 1) _ (fun j hj1 hj2 => hsvc j (by omega) (by omega)) ?_
    intro s hs
    rcases List.mem_append.mp hs with h1 | h2
    · exact hst s h1
    · rw [List.mem_singleton] at h2
      subst h2
      exact ⟨rfl, rfl⟩

/-! ## C1: the iteration budget and the incomplete status -/

/-- Claim C1.  For every bound `max_iterations = N` and every sequence of
completion-service responses, the loop appends at most `N` step records; and
if all `N` responses carry tool calls (no tool-call-free response arrives),
the run ends with status incomplete — a distinct expected outcome, not an
error. -/
theorem C1_reasoning_loop_budget (reg : Registry) (user_prompt : String) (N : Nat)
    (svc : Nat → Except String ResponseMessage) :
    ((runLoop reg user_prompt N svc).execution_steps).length ≤ N ∧
    ((∀ j, j < N → ∃ rm, svc j = Except.ok rm ∧ rm.tool_calls ≠ []) →
      runStatus ((runLoop reg user_prompt N svc).execution_steps) = RunStatus.incomplete) := by
  constructor
  · have h := runLoopAux_steps_le reg svc N 0 ⟨init_messages user_prompt, []⟩
    simpa [runLoop] using h
  · intro h
    have hall := runLoopAux_no_final reg svc N 0 ⟨init_messages user_prompt, []⟩
      (fun j _ hj2 => h j (by omega)) (by intro s hs; simp at hs)
    rcases hl : ((runLoop reg user_prompt N svc).execution_steps).getLast? with _ | s
    · simp [runStatus, hl]
    · obtain ⟨h1, h2⟩ := hall s (mem_of_getLast?_eq hl)
      simp [runStatus, hl, h1, h2, optTruthy]

/-- Witness for C1: a service that requests a tool call on every iteration,
run with budget 2, ends incomplete. -/
theorem C1_witness :
    (∀ j, j < 2 → ∃ rm, svcAlwaysTools j = Except.ok rm ∧ rm.tool_calls ≠ []) ∧
    runStatus ((runLoop mockRegistryStub "plan a trip" 2 svcAlwaysTools).execution_steps) =
      RunStatus.incomplete := by
  have hp : ∀ j, j < 2 → ∃ rm, svcAlwaysTools j = Except.ok rm ∧ rm.tool_calls ≠ [] :=
    fun j _ => ⟨_, rfl, by simp [svcAlwaysTools]⟩
  exact ⟨hp, (C1_reasoning_loop_budget mockRegistryStub "plan a trip" 2 svcAlwaysTools).2 hp⟩

/-! ## C2: in-order, sequential tool dispatch within one iteration -/

/-- Claim C2.  Within an iteration whose response carries tool calls, the
conversation grows by the assistant message followed by exactly the tool
messages of the calls, dispatched sequentially in the order the model
returned them (the `map` preserves both order and multiplicity), and each
tool message carries the id and name of its request. -/
theorem C2_tool_order_invariant (reg : Registry) (st : LoopState) (i : Nat)
    (rm : ResponseMessage) (h : rm.tool_calls ≠ []) :
    (runIteration reg i (Except.ok rm) st).1.messages =
      st.messages ++ [Message.assistant rm.content rm.tool_calls] ++
        rm.tool_calls.map (fun tc => (dispatchToolCall reg tc).2) ∧
    ∀ tc ∈ rm.tool_calls, ∃ c,
      (dispatchToolCall reg tc).2 = Message.tool tc.id tc.function_name c := by
  constructor
  · rw [runIteration_tools reg i rm st h]
  · intro tc _
    exact dispatchToolCall_msg reg tc

/-- Witness for C2 at a concrete two-tool-call response. -/
theorem C2_witness :
    rmTwoTools.tool_calls ≠ [] ∧
    (runIteration mockRegistryStub 1 (Except.ok rmTwoTools) st0).1.messages =
      st0.messages ++ [Message.assistant rmTwoTools.content rmTwoTools.tool_calls] ++
        rmTwoTools.tool_calls.map (fun tc => (dispatchToolCall mockRegistryStub tc).2) :=
  ⟨by simp [rmTwoTools],
    (C2_tool_order_invariant mockRegistryStub st0 1 rmTwoTools (by simp [rmTwoTools])).1⟩

/-! ## C3: dispatching an unknown tool

The claim states the resulting observation content is `"unknown tool:
<name>"`.  In the source (react_agent.py lines 616-647) the missing-name
subscript raises `KeyError`, which the generic handler-exception `except`
catches, so no exception leaves the dispatch step and an error tool message
is appended — but its content is `"Error: "` followed by `str(KeyError)`,
i.e. the quoted name, not `"unknown tool: <name>"`.  (In tool_call.py lines
222-241 there is no catch around the dispatch loop at all; the page-level
handler aborts the whole interaction.  The loop engine's dispatcher is the
react_agent.py one modelled here.) -/

/-- Counterexample to C3 as stated: dispatching the unregistered name
`"unknown_tool"` against the mock registry yields the content
`"Error: \x27unknown_tool\x27"`, which is not `"unknown tool: unknown_tool"`. -/
theorem C3_counterexample :
    (dispatchToolCall mockRegistryStub ⟨"call_0", "unknown_tool", ""⟩).2 =
      Message.tool "call_0" "unknown_tool" "Error: \x27unknown_tool\x27" ∧
    ("Error: \x27unknown_tool\x27" : String) ≠ "unknown tool: unknown_tool" := by
  constructor
  · rfl
  · decide

/-- Claim C3 as amended: dispatching a request whose name is not registered
never raises out of the dispatch step (the `KeyError` is caught by the
generic handler `except`); it yields an error trace and appends an error
tool message — whose content is `"Error: "` followed by the Python `str` of
the `KeyError`, that is `"Error: \x27<name>\x27"`. -/
theorem C3_unknown_tool_amended (reg : Registry) (tc : ToolCall)
    (h : reg tc.function_name = none) :
    dispatchToolCall reg tc =
      (⟨tc.function_name, tc.function_arguments, none, some (keyErrorStr tc.function_name)⟩,
        Message.tool tc.id tc.function_name ("Error: " ++ keyErrorStr tc.function_name)) := by
  simp [dispatchToolCall, h]

/-- Witness for C3 (amended) at a concrete unregistered name. -/
theorem C3_witness :
    mockRegistryStub "missing_tool" = none ∧
    dispatchToolCall mockRegistryStub ⟨"call_7", "missing_tool", ""⟩ =
      (⟨"missing_tool", "", none, some (keyErrorStr "missing_tool")⟩,
        Message.tool "call_7" "missing_tool" ("Error: " ++ keyErrorStr "missing_tool")) :=
  ⟨rfl, C3_unknown_tool_amended mockRegistryStub ⟨"call_7", "missing_tool", ""⟩ rfl⟩

/-! ## C4: a raising tool handler is recovered and the loop continues -/

/-- Claim C4.  If a registered handler raises during execution, the
dispatcher catches the exception and converts it into an error tool message
appended to the conversation; nothing propagates to the loop (dispatch is a
total function of the handler outcome) and the iteration's outcome is to
continue to the next iteration rather than terminate. -/
theorem C4_handler_exception_recovered (reg : Registry) (st : LoopState) (i : Nat)
    (rm : ResponseMessage) (tc : ToolCall) (handler : String → Except String String)
    (e : String) (hmem : tc ∈ rm.tool_calls) (hreg : reg tc.function_name = some handler)
    (herr : handler tc.function_arguments = Except.error e) :
    dispatchToolCall reg tc =
      (⟨tc.function_name, tc.function_arguments, none, some e⟩,
        Message.tool tc.id tc.function_name ("Error: " ++ e)) ∧
    (runIteration reg i (Except.ok rm) st).2 = IterOutcome.next ∧
    Message.tool tc.id tc.function_name ("Error: " ++ e) ∈
      (runIteration reg i (Except.ok rm) st).1.messages := by
  have hne : rm.tool_calls ≠ [] := fun hnil => by simp [hnil] at hmem
  have hd : dispatchToolCall reg tc =
      (⟨tc.function_name, tc.function_arguments, none, some e⟩,
        Message.tool tc.id tc.function_name ("Error: " ++ e)) := by
    simp [dispatchToolCall, hreg, herr]
  refine ⟨hd, ?_, ?_⟩
  · rw [runIteration_tools reg i rm st hne]
  · rw [runIteration_tools reg i rm st hne]
    refine List.mem_append.mpr (Or.inr ?_)
    have hmap := List.mem_map_of_mem (fun tc => (dispatchToolCall reg tc).2) hmem
    simpa [hd] using hmap

/-- Witness for C4: the registry whose `get_weather` handler raises
`"boom"`. -/
theorem C4_witness :
    mockRegistryFailingWeather "get_weather" = some (fun _ => Except.error "boom") ∧
    (runIteration mockRegistryFailingWeather 1 (Except.ok rmFailingWeather) st0).2 =
      IterOutcome.next ∧
    Message.tool "call_9" "get_weather" ("Error: " ++ "boom") ∈
      (runIteration mockRegistryFailingWeather 1 (Except.ok rmFailingWeather) st0).1.messages := by
  have h := C4_handler_exception_recovered mockRegistryFailingWeather st0 1 rmFailingWeather
    ⟨"call_9", "get_weather", "Tokyo"⟩ (fun _ => Except.error "boom") "boom"
    (by simp [rmFailingWeather]) rfl rfl
  exact ⟨rfl, h.2.1, h.2.2⟩

/-! ## C9: no explicit maximum hop count on handoff chains -/

/-- A valid handoff script is consumed in full: the run completes having
taken every requested hop, and never yields a too-many-handoffs outcome. -/
theorem runHandoffChain_valid (g : AgentGraph) :
    ∀ (script : List Nat) (cur : String) (acc : List String),
      validScriptB g cur script = true →
      ∃ chain, runHandoffChain g cur script acc = CoordOutcome.completed chain ∧
        chain.length = acc.length + script.length := by
  intro script
  induction script with
  | nil => intro cur acc _; exact ⟨acc, rfl, by simp⟩
  | cons c rest ih =>
    intro cur acc hv
    cases hg : (g cur).get? c with
    | none =>
      simp only [validScriptB, hg] at hv
      exact (Bool.false_ne_true hv).elim
    | some t =>
      simp only [validScriptB, hg] at hv
      obtain ⟨chain, hc, hlen⟩ := ih t (acc ++ [t]) hv
      refine ⟨chain, ?_, ?_⟩
      · simp only [runHandoffChain, hg]
        exact hc
      · simp at hlen
        simp
        omega

/-- In the two-agent cyclic graph, repeatedly choosing the unique handoff is
always a valid script. -/
theorem pingPong_replicate_valid :
    ∀ (n : Nat) (cur : String), cur = "A" ∨ cur = "B" →
      validScriptB pingPongGraph cur (List.replicate n 0) = true := by
  intro n
  induction n with
  | zero => intro cur _; rfl
  | succ m ih =>
    intro cur hcur
    rcases hcur with h | h <;> subst h
    · rw [List.replicate_succ]
      simp only [validScriptB]
      rw [show (pingPongGraph "A").get? 0 = some "B" from rfl]
      exact ih "B" (Or.inr rfl)
    · rw [List.replicate_succ]
      simp only [validScriptB]
      rw [show (pingPongGraph "B").get? 0 = some "A" from rfl]
      exact ih "A" (Or.inl rfl)

/-- Counterexample to C9 as stated (its negation): there is no maximum hop
count `M` such that every valid handoff chain longer than `M` fails closed
with a too-many-handoffs outcome — in the cyclic two-agent graph the
coordinator completes a valid chain of length `M + 1` for every `M`,
continuing to delegate instead of failing. -/
theorem C9_counterexample :
    ¬ ∃ M : Nat, ∀ (g : AgentGraph) (root : String) (script : List Nat),
        validScriptB g root script = true → M < script.length →
        ∃ chain, runCoordinator g root script = CoordOutcome.tooManyHandoffs chain := by
  rintro ⟨M, h⟩
  have hv := pingPong_replicate_valid (M + 1) "A" (Or.inl rfl)
  obtain ⟨chain2, hc2⟩ := h pingPongGraph "A" (List.replicate (M + 1) 0) hv
    (by rw [List.length_replicate]; omega)
  obtain ⟨chain, hc, _⟩ :=
    runHandoffChain_valid pingPongGraph (List.replicate (M + 1) 0) "A" ["A"] hv
  rw [runCoordinator] at hc2
  rw [hc] at hc2
  exact absurd hc2 (by simp)

/-- Claim C9 as amended: the delegation coordinator enforces no explicit
maximum hop count — every valid handoff script is taken in full, the chain
visits one agent per hop plus the root, and no too-many-handoffs failure
exists on any path. -/
theorem C9_no_handoff_cap_amended (g : AgentGraph) (root : String) (script : List Nat)
    (h : validScriptB g root script = true) :
    ∃ chain, runCoordinator g root script = CoordOutcome.completed chain ∧
      chain.length = script.length + 1 := by
  obtain ⟨chain, hc, hlen⟩ := runHandoffChain_valid g script root [root] h
  refine ⟨chain, hc, ?_⟩
  simp at hlen
  omega

/-- Witness for C9 (amended) on the repository's own agent graph: the
coordinator hands off to the Parallel Research Coordinator (index 2), which
hands off to the Content Writer (index 4); both hops are taken. -/
theorem C9_witness :
    validScriptB coordinatorHandoffs "Project Coordinator" [2, 4] = true ∧
    ∃ chain,
      runCoordinator coordinatorHandoffs "Project Coordinator" [2, 4] =
        CoordOutcome.completed chain ∧ chain.length = [2, 4].length + 1 :=
  ⟨by decide,
    C9_no_handoff_cap_amended coordinatorHandoffs "Project Coordinator" [2, 4] (by decide)⟩

end BuildWithAI
